import Mathlib

/-!
Verification of the data-generation repository (generate_benchmark_data.py and
generate_iceberg_tables.py) against its natural-language specification.

The Python source is shallowly embedded: pure arithmetic and list-shaped logic
is translated to executable Lean definitions; Python exceptions are modelled
with `Except`; dataframes are represented by the data the claims are about
(their id columns, or just emptiness); machine floats that only carry exact
decimal constants (size ratios, the 0.8 success threshold) are modelled as
exact rationals.
-/

/-- Arrow column types that appear in the table configurations, plus
representatives of the remaining Arrow types (the source's
`_convert_arrow_type_to_iceberg` has a catch-all fallback for these). -/
inductive ArrowType where
  | int64
  | int32
  | int16
  | int8
  | string
  | large_string
  | boolean
  | float64
  | float32
  | float16
  | date32
  | date64
  | timestamp (unit : String) (tz : Option String)
  | decimal128 (precision : Nat) (scale : Int)
  | binary
  | time32 (unit : String)
  | time64 (unit : String)
  | duration (unit : String)
deriving DecidableEq, Repr

/-- Iceberg column types produced by `_convert_arrow_type_to_iceberg`. -/
inductive IcebergType where
  | LongType
  | IntegerType
  | StringType
  | BooleanType
  | FloatType
  | DoubleType
  | DateType
  | TimestampType
  | DecimalType (precision : Nat) (scale : Int)
deriving DecidableEq, Repr

/-- Partition transforms used by `create_iceberg_table`: `days()` and
`bucket(100)`.  The source passes `transform=None` for identity
partitioning, which the embedding keeps as `Option.none`. -/
inductive IcebergTransform where
  | days
  | bucket (n : Nat)
deriving DecidableEq, Repr

/-- A `PartitionField` as constructed in `create_iceberg_table`:
`transform = none` mirrors the source's `transform=None  # Identity transform`. -/
structure PartitionField where
  source_id : Nat
  field_id : Nat
  transform : Option IcebergTransform
  name : String
deriving DecidableEq, Repr

/-- One entry of the `ICEBERG_TABLES` dictionary.  `sizeFraction` is the
source's `size_ratio` value, and `table_schema` lists the PyArrow schema
fields in source order. -/
structure TableConfig where
  table_name : String
  sizeFraction : ℚ
  partition_spec : List String
  sort_order : List String
  table_schema : List (String × ArrowType)
deriving DecidableEq, Repr

def customersTable : TableConfig :=
  { table_name := "customers"
  , sizeFraction := 0.05
  , partition_spec := ["country", "registration_date"]
  , sort_order := ["customer_id"]
  , table_schema :=
      [ ("customer_id", ArrowType.int64)
      , ("customer_name", ArrowType.string)
      , ("email", ArrowType.string)
      , ("phone", ArrowType.string)
      , ("address", ArrowType.string)
      , ("country", ArrowType.string)
      , ("region", ArrowType.string)
      , ("registration_date", ArrowType.date32)
      , ("credit_score", ArrowType.int32)
      , ("lifetime_value", ArrowType.float64)
      , ("is_premium", ArrowType.boolean)
      , ("last_login", ArrowType.timestamp "us" none)
      , ("created_at", ArrowType.timestamp "us" none)
      , ("updated_at", ArrowType.timestamp "us" none) ] }

def productsTable : TableConfig :=
  { table_name := "products"
  , sizeFraction := 0.03
  , partition_spec := ["category", "created_date"]
  , sort_order := ["product_id"]
  , table_schema :=
      [ ("product_id", ArrowType.int64)
      , ("product_name", ArrowType.string)
      , ("category", ArrowType.string)
      , ("brand", ArrowType.string)
      , ("price", ArrowType.decimal128 10 2)
      , ("cost", ArrowType.decimal128 10 2)
      , ("weight", ArrowType.float32)
      , ("dimensions", ArrowType.string)
      , ("description", ArrowType.string)
      , ("supplier_id", ArrowType.int64)
      , ("created_date", ArrowType.date32)
      , ("is_active", ArrowType.boolean)
      , ("created_at", ArrowType.timestamp "us" none)
      , ("updated_at", ArrowType.timestamp "us" none) ] }

def ordersTable : TableConfig :=
  { table_name := "orders"
  , sizeFraction := 0.08
  , partition_spec := ["country", "order_date"]
  , sort_order := ["order_id", "order_date"]
  , table_schema :=
      [ ("order_id", ArrowType.int64)
      , ("customer_id", ArrowType.int64)
      , ("order_date", ArrowType.date32)
      , ("ship_date", ArrowType.date32)
      , ("delivery_date", ArrowType.date32)
      , ("order_status", ArrowType.string)
      , ("payment_method", ArrowType.string)
      , ("total_amount", ArrowType.decimal128 12 2)
      , ("tax_amount", ArrowType.decimal128 10 2)
      , ("shipping_amount", ArrowType.decimal128 8 2)
      , ("discount_amount", ArrowType.decimal128 8 2)
      , ("country", ArrowType.string)
      , ("region", ArrowType.string)
      , ("created_at", ArrowType.timestamp "us" none)
      , ("updated_at", ArrowType.timestamp "us" none) ] }

def lineitemTable : TableConfig :=
  { table_name := "lineitem"
  , sizeFraction := 0.60
  , partition_spec := ["ship_date"]
  , sort_order := ["order_id", "lineitem_id"]
  , table_schema :=
      [ ("lineitem_id", ArrowType.int64)
      , ("order_id", ArrowType.int64)
      , ("product_id", ArrowType.int64)
      , ("quantity", ArrowType.int32)
      , ("unit_price", ArrowType.decimal128 10 2)
      , ("discount", ArrowType.float32)
      , ("tax", ArrowType.float32)
      , ("extended_price", ArrowType.decimal128 12 2)
      , ("discount_amount", ArrowType.decimal128 10 2)
      , ("tax_amount", ArrowType.decimal128 10 2)
      , ("net_amount", ArrowType.decimal128 12 2)
      , ("line_status", ArrowType.string)
      , ("ship_date", ArrowType.date32)
      , ("comment", ArrowType.string)
      , ("created_at", ArrowType.timestamp "us" none)
      , ("updated_at", ArrowType.timestamp "us" none) ] }

def eventsTable : TableConfig :=
  { table_name := "events"
  , sizeFraction := 0.20
  , partition_spec := ["event_date", "event_type"]
  , sort_order := ["event_timestamp", "customer_id"]
  , table_schema :=
      [ ("event_id", ArrowType.int64)
      , ("customer_id", ArrowType.int64)
      , ("event_type", ArrowType.string)
      , ("event_timestamp", ArrowType.timestamp "us" none)
      , ("event_date", ArrowType.date32)
      , ("page_url", ArrowType.string)
      , ("user_agent", ArrowType.string)
      , ("ip_address", ArrowType.string)
      , ("country", ArrowType.string)
      , ("device_type", ArrowType.string)
      , ("session_id", ArrowType.string)
      , ("product_id", ArrowType.int64)
      , ("search_query", ArrowType.string)
      , ("created_at", ArrowType.timestamp "us" none) ] }

def inventoryTable : TableConfig :=
  { table_name := "inventory"
  , sizeFraction := 0.02
  , partition_spec := ["warehouse_location", "last_updated_date"]
  , sort_order := ["product_id", "supplier_id"]
  , table_schema :=
      [ ("inventory_id", ArrowType.int64)
      , ("product_id", ArrowType.int64)
      , ("supplier_id", ArrowType.int64)
      , ("warehouse_location", ArrowType.string)
      , ("quantity_on_hand", ArrowType.int32)
      , ("quantity_allocated", ArrowType.int32)
      , ("reorder_point", ArrowType.int32)
      , ("reorder_quantity", ArrowType.int32)
      , ("unit_cost", ArrowType.decimal128 10 2)
      , ("last_updated", ArrowType.timestamp "us" none)
      , ("last_updated_date", ArrowType.date32)
      , ("created_at", ArrowType.timestamp "us" none) ] }

def suppliersTable : TableConfig :=
  { table_name := "suppliers"
  , sizeFraction := 0.02
  , partition_spec := ["country", "established_year"]
  , sort_order := ["supplier_id"]
  , table_schema :=
      [ ("supplier_id", ArrowType.int64)
      , ("supplier_name", ArrowType.string)
      , ("contact_name", ArrowType.string)
      , ("email", ArrowType.string)
      , ("phone", ArrowType.string)
      , ("address", ArrowType.string)
      , ("country", ArrowType.string)
      , ("region", ArrowType.string)
      , ("rating", ArrowType.float32)
      , ("established_date", ArrowType.date32)
      , ("established_year", ArrowType.int32)
      , ("is_verified", ArrowType.boolean)
      , ("created_at", ArrowType.timestamp "us" none)
      , ("updated_at", ArrowType.timestamp "us" none) ] }

/-- The `ICEBERG_TABLES` configuration dictionary of generate_iceberg_tables.py,
in source order. -/
def ICEBERG_TABLES : List TableConfig :=
  [customersTable, productsTable, ordersTable, lineitemTable, eventsTable,
   inventoryTable, suppliersTable]

/-- The categorical column list of the identity-partitioning branch in
`create_iceberg_table`. -/
def CATEGORICAL_PARTITION_COLUMNS : List String :=
  ["country", "region", "category", "event_type", "warehouse_location"]

/-- Kernel-computable model of Python's `str.endswith` used by the
partition-rule chain (`partition_col.endswith('_date')`). -/
def ends_with (s suffix : String) : Bool :=
  suffix.data.isSuffixOf s.data

/-- The `field_id` that `create_iceberg_table` assigns to schema fields is the
1-based position of the field in the arrow schema; `next(f.field_id for f in
iceberg_schema.fields if f.name == partition_col)` is the first match and
raises StopIteration when there is none. -/
def field_id_of (names : List String) (col : String) : Option Nat :=
  (names.findIdx? (fun n => n == col)).map (fun i => i + 1)

/-- The partition-field construction loop of `create_iceberg_table`: an
enumerate loop over `partition_spec` (so skipped columns still advance the
index `i` used in `field_id=1000 + i`), with a days / identity / bucket(100)
rule chain, silently skipping columns matching no rule. -/
def buildPartitionFieldsAux (names : List String) : Nat → List String → Except String (List PartitionField)
  | _, [] => Except.ok []
  | i, partition_col :: rest =>
    if ends_with partition_col "_date" then
      match field_id_of names partition_col with
      | none => Except.error "StopIteration"
      | some sid =>
        (buildPartitionFieldsAux names (i + 1) rest).map
          (fun flds =>
            { source_id := sid, field_id := 1000 + i,
              transform := some IcebergTransform.days,
              name := partition_col ++ "_day" } :: flds)
    else if partition_col ∈ CATEGORICAL_PARTITION_COLUMNS then
      match field_id_of names partition_col with
      | none => Except.error "StopIteration"
      | some sid =>
        (buildPartitionFieldsAux names (i + 1) rest).map
          (fun flds =>
            { source_id := sid, field_id := 1000 + i,
              transform := none,
              name := partition_col } :: flds)
    else if partition_col = "customer_id" then
      match field_id_of names partition_col with
      | none => Except.error "StopIteration"
      | some sid =>
        (buildPartitionFieldsAux names (i + 1) rest).map
          (fun flds =>
            { source_id := sid, field_id := 1000 + i,
              transform := some (IcebergTransform.bucket 100),
              name := partition_col ++ "_bucket" } :: flds)
    else
      buildPartitionFieldsAux names (i + 1) rest

/-- The partition fields `create_iceberg_table` builds for a configured table. -/
def partition_fields_of (t : TableConfig) : Except String (List PartitionField) :=
  buildPartitionFieldsAux (t.table_schema.map Prod.fst) 0 t.partition_spec

/-- The partition-field list of a table, with the (never reached for the
configured tables) StopIteration case mapped to the empty list. -/
def partition_fields_list (t : TableConfig) : List PartitionField :=
  match partition_fields_of t with
  | Except.ok flds => flds
  | Except.error _ => []

/-- The `_convert_arrow_type_to_iceberg` elif chain.  The Python function
consists only of `pa.types.is_*` tests (which do not raise) and a final
default fallback, so it is total; the embedding is a total function. -/
def convert_arrow_type_to_iceberg : ArrowType → IcebergType
  | ArrowType.int64 => IcebergType.LongType
  | ArrowType.int32 => IcebergType.IntegerType
  | ArrowType.string => IcebergType.StringType
  | ArrowType.boolean => IcebergType.BooleanType
  | ArrowType.float32 => IcebergType.FloatType
  | ArrowType.float64 => IcebergType.DoubleType
  | ArrowType.date32 => IcebergType.DateType
  | ArrowType.timestamp _ _ => IcebergType.TimestampType
  | ArrowType.decimal128 p s => IcebergType.DecimalType p s
  | _ => IcebergType.StringType

/-- Arrow kinds given an explicit (non-fallback) mapping by the elif chain of
`_convert_arrow_type_to_iceberg`. -/
def isMappedArrowKind : ArrowType → Bool
  | ArrowType.int64 => true
  | ArrowType.int32 => true
  | ArrowType.string => true
  | ArrowType.boolean => true
  | ArrowType.float32 => true
  | ArrowType.float64 => true
  | ArrowType.date32 => true
  | ArrowType.timestamp _ _ => true
  | ArrowType.decimal128 _ _ => true
  | _ => false

/-- The catalog object selected by `_setup_catalog`.  The embedding records
which setup path was taken; the actual `load_catalog` calls are external
library calls and are modelled as succeeding. -/
inductive Catalog where
  | hive_catalog
  | unity_catalog
deriving DecidableEq, Repr

/-- Exceptions raised by `_setup_catalog` and `_setup_databricks_catalog`. -/
inductive SetupError where
  | import_error (msg : String)
  | value_error (msg : String)
deriving DecidableEq, Repr

/-- The `_setup_catalog` dispatch of `IcebergTableGenerator`, including the
`DATABRICKS_AVAILABLE` check of `_setup_databricks_catalog`. -/
def setup_catalog (catalog_type : String) (databricks_available : Bool) :
    Except SetupError Catalog :=
  if catalog_type = "hive" then
    Except.ok Catalog.hive_catalog
  else if catalog_type = "databricks" then
    if !databricks_available then
      Except.error (SetupError.import_error
        "Databricks SDK not available. Install with: pip install databricks-sdk")
    else
      Except.ok Catalog.unity_catalog
  else
    Except.error (SetupError.value_error ("Unsupported catalog type: " ++ catalog_type))

namespace Parquet

/-- Configuration constant of generate_benchmark_data.py: 1M rows per chunk. -/
def CHUNK_SIZE : Nat := 1000000

/-- Lookup-data size of the parquet generator: 10M customers. -/
def num_customers : Nat := 10000000

/-- Lookup-data size of the parquet generator: 1M products. -/
def num_products : Nat := 1000000

/-- Lookup-data size of the parquet generator: 100K suppliers. -/
def num_suppliers : Nat := 100000

/-- The `target_rows = int(target_size_gb * estimated_rows_per_gb)` line of
`generate_and_upload_table` with `estimated_rows_per_gb = 1_000_000`.  For the
nonnegative sizes the claims quantify over, Python's truncating `int()` agrees
with the floor used here. -/
def target_rows (target_size_gb : ℚ) : Nat :=
  (⌊target_size_gb * 1000000⌋).toNat

/-- The `num_chunks = (target_rows + CHUNK_SIZE - 1) // CHUNK_SIZE` line of
`generate_and_upload_table`. -/
def num_chunks (tr : Nat) : Nat :=
  (tr + CHUNK_SIZE - 1) / CHUNK_SIZE

/-- The result of the `try` body of `process_chunk` (generate, write parquet,
upload to S3, remove the temp file), modelled as an `Except`: an exception in
any step short-circuits to `Except.error`. -/
def process_chunk (result : Except String Unit) : Bool :=
  match result with
  | Except.ok _ => true
  | Except.error _ => false

/-- Sequencing the generation step of a chunk with the remaining steps of the
`process_chunk` body: an exception from the generator propagates. -/
def chunk_body (gen : Except String (List Nat)) (rest : Except String Unit) :
    Except String Unit :=
  Except.bind gen (fun _ => rest)

/-- The per-chunk fan-out of `generate_and_upload_table`: every chunk id in
range is submitted exactly once and its outcome recorded. -/
def runChunks : List (Except String Unit) → List Bool
  | [] => []
  | c :: rest => process_chunk c :: runChunks rest

/-- The final `return completed == num_chunks` of `generate_and_upload_table`,
where `completed` counts the chunks whose `process_chunk` returned True and the
chunk count is the number of submitted chunks. -/
def generate_and_upload_result (outs : List (Except String Unit)) : Bool :=
  (runChunks outs).count true == outs.length

/-- The id column of `generate_customers_chunk`: `start_id = chunk_id *
chunk_size + 1`, `end_id = min(start_id + chunk_size, num_customers + 1)`, an
empty frame when `actual_size <= 0`, else `list(range(start_id, end_id))`. -/
def generate_customers_chunk (chunk_id chunk_size : Nat) : List Nat :=
  let start_id : Nat := chunk_id * chunk_size + 1
  let end_id : Nat := min (start_id + chunk_size) (num_customers + 1)
  let actual_size : Int := (end_id : Int) - (start_id : Int)
  if actual_size ≤ 0 then [] else List.range' start_id actual_size.toNat

/-- The id column of `generate_products_chunk`.  There is no empty-chunk guard:
when `actual_size` is negative, the `np.random.choice(..., actual_size)` calls
in the frame constructor raise a ValueError, modelled as `Except.error`; for
`actual_size = 0` they return empty arrays and an empty frame results. -/
def generate_products_chunk (chunk_id chunk_size : Nat) : Except String (List Nat) :=
  let start_id : Nat := chunk_id * chunk_size + 1
  let end_id : Nat := min (start_id + chunk_size) (num_products + 1)
  let actual_size : Int := (end_id : Int) - (start_id : Int)
  if actual_size < 0 then
    Except.error "ValueError: negative dimensions are not allowed"
  else
    Except.ok (List.range' start_id actual_size.toNat)

/-- The id column of `generate_suppliers_chunk`; like the products generator it
has no empty-chunk guard. -/
def generate_suppliers_chunk (chunk_id chunk_size : Nat) : Except String (List Nat) :=
  let start_id : Nat := chunk_id * chunk_size + 1
  let end_id : Nat := min (start_id + chunk_size) (num_suppliers + 1)
  let actual_size : Int := (end_id : Int) - (start_id : Int)
  if actual_size < 0 then
    Except.error "ValueError: negative dimensions are not allowed"
  else
    Except.ok (List.range' start_id actual_size.toNat)

end Parquet

namespace Iceberg

/-- Configuration constant of generate_iceberg_tables.py: 500K rows per chunk. -/
def CHUNK_SIZE : Nat := 500000

/-- The `target_rows = int(target_size_gb * estimated_rows_per_gb)` line of
`generate_iceberg_table` with `estimated_rows_per_gb = 1_000_000`. -/
def target_rows (target_size_gb : ℚ) : Nat :=
  (⌊target_size_gb * 1000000⌋).toNat

/-- The `num_chunks = max(1, (target_rows + CHUNK_SIZE - 1) // CHUNK_SIZE)`
line of `generate_iceberg_table`. -/
def num_chunks (tr : Nat) : Nat :=
  max 1 ((tr + CHUNK_SIZE - 1) / CHUNK_SIZE)

/-- The fate of one chunk in `process_table_chunk`: the generation step raised,
or produced an empty frame, or produced data whose `write_to_iceberg_table`
call reported `write_ok`. -/
inductive ChunkOutcome where
  | gen_error (msg : String)
  | empty_chunk
  | data_chunk (write_ok : Bool)
deriving DecidableEq, Repr

/-- `process_table_chunk`: exceptions are caught and reported as False, an
empty frame returns True without writing, otherwise the result of
`write_to_iceberg_table` (which itself catches exceptions and returns a
boolean) is returned. -/
def process_table_chunk : ChunkOutcome → Bool
  | ChunkOutcome.gen_error _ => false
  | ChunkOutcome.empty_chunk => true
  | ChunkOutcome.data_chunk write_ok => write_ok

/-- The per-chunk fan-out of `generate_iceberg_table`: every chunk id in range
is submitted exactly once and its outcome recorded. -/
def runChunks : List ChunkOutcome → List Bool
  | [] => []
  | c :: rest => process_table_chunk c :: runChunks rest

/-- The tail of `generate_iceberg_table`: `success_rate = completed /
num_chunks if num_chunks > 0 else 0` followed by `return success_rate > 0.8`,
with the float arithmetic carried out exactly in ℚ. -/
def generate_iceberg_table_result (outs : List ChunkOutcome) : Bool :=
  let completed : Nat := (runChunks outs).count true
  let n : Nat := outs.length
  let success_rate : ℚ := if 0 < n then (completed : ℚ) / (n : ℚ) else 0
  decide (success_rate > 0.8)

end Iceberg

/-- A concrete run of ten chunks in which nine succeed and one fails. -/
def nineOfTenChunks : List (Except String Unit) :=
  [Except.ok (), Except.ok (), Except.ok (), Except.ok (), Except.ok (),
   Except.ok (), Except.ok (), Except.ok (), Except.ok (), Except.error "chunk failed"]

/-- Helper: the parquet per-table loop applies `process_chunk` to each
submitted chunk exactly once, in order. -/
theorem Parquet.runChunks_applies_each_once (outs : List (Except String Unit)) :
    Parquet.runChunks outs = outs.map Parquet.process_chunk := by
  induction outs with
  | nil => rfl
  | cons c rest ih => simp [Parquet.runChunks, ih]

/-- Helper: the iceberg per-table loop applies `process_table_chunk` to each
submitted chunk exactly once, in order. -/
theorem Iceberg.runTableChunks_applies_each_once (outs : List Iceberg.ChunkOutcome) :
    Iceberg.runChunks outs = outs.map Iceberg.process_table_chunk := by
  induction outs with
  | nil => rfl
  | cons c rest ih => simp [Iceberg.runChunks, ih]

/-- C4: the `_convert_arrow_type_to_iceberg` mapping is total and maps int64
to LongType, int32 to IntegerType, string to StringType, boolean to
BooleanType, float32 to FloatType, float64 to DoubleType, date32 to DateType,
any timestamp to TimestampType, decimal(p, s) to DecimalType(p, s), and every
other Arrow type to the StringType fallback; being a total Lean function into
`IcebergType`, it never raises. -/
theorem arrow_to_iceberg_type_mapping :
    convert_arrow_type_to_iceberg ArrowType.int64 = IcebergType.LongType
    ∧ convert_arrow_type_to_iceberg ArrowType.int32 = IcebergType.IntegerType
    ∧ convert_arrow_type_to_iceberg ArrowType.string = IcebergType.StringType
    ∧ convert_arrow_type_to_iceberg ArrowType.boolean = IcebergType.BooleanType
    ∧ convert_arrow_type_to_iceberg ArrowType.float32 = IcebergType.FloatType
    ∧ convert_arrow_type_to_iceberg ArrowType.float64 = IcebergType.DoubleType
    ∧ convert_arrow_type_to_iceberg ArrowType.date32 = IcebergType.DateType
    ∧ (∀ unit tz, convert_arrow_type_to_iceberg (ArrowType.timestamp unit tz) =
        IcebergType.TimestampType)
    ∧ (∀ p s, convert_arrow_type_to_iceberg (ArrowType.decimal128 p s) =
        IcebergType.DecimalType p s)
    ∧ (∀ t, isMappedArrowKind t = false →
        convert_arrow_type_to_iceberg t = IcebergType.StringType) := by
  refine ⟨rfl, rfl, rfl, rfl, rfl, rfl, rfl, fun _ _ => rfl, fun _ _ => rfl, ?_⟩
  intro t h
  cases t <;> first
    | rfl
    | simp [isMappedArrowKind] at h

/-- Witness for C4: a type outside the explicit elif chain (binary) takes the
StringType fallback. -/
theorem arrow_to_iceberg_type_mapping_witness :
    isMappedArrowKind ArrowType.binary = false
    ∧ convert_arrow_type_to_iceberg ArrowType.binary = IcebergType.StringType :=
  ⟨rfl, arrow_to_iceberg_type_mapping.2.2.2.2.2.2.2.2.2 ArrowType.binary rfl⟩

/-- C7: `_setup_catalog` supports exactly the two catalog kinds: 'hive'
selects the Hive metastore setup, 'databricks' selects the Unity Catalog setup
(raising ImportError when the Databricks SDK is absent), and any other
catalog_type raises ValueError. -/
theorem catalog_kind_dispatch :
    (∀ avail, setup_catalog "hive" avail = Except.ok Catalog.hive_catalog)
    ∧ setup_catalog "databricks" true = Except.ok Catalog.unity_catalog
    ∧ setup_catalog "databricks" false = Except.error (SetupError.import_error
        "Databricks SDK not available. Install with: pip install databricks-sdk")
    ∧ (∀ s avail, s ≠ "hive" → s ≠ "databricks" →
        setup_catalog s avail = Except.error (SetupError.value_error
          ("Unsupported catalog type: " ++ s))) := by
  refine ⟨fun _ => rfl, rfl, rfl, ?_⟩
  intro s avail h1 h2
  simp [setup_catalog, h1, h2]

/-- Witness for C7: an unsupported catalog type ('glue') raises ValueError. -/
theorem catalog_kind_dispatch_witness :
    setup_catalog "glue" true = Except.error (SetupError.value_error
      "Unsupported catalog type: glue") :=
  catalog_kind_dispatch.2.2.2 "glue" true (by decide) (by decide)

/-- C5: a chunk whose body raises is not retried: `process_chunk` (parquet)
and `process_table_chunk` (iceberg) report the exception as False, each
submitted chunk is processed exactly once (the outcome lists are pointwise
maps), and the per-table fan-out continues through every remaining chunk no
matter how many chunks before it failed. -/
theorem chunk_failure_no_retry_report_and_continue :
    (∀ e, Parquet.process_chunk (Except.error e) = false)
    ∧ (∀ e, Iceberg.process_table_chunk (Iceberg.ChunkOutcome.gen_error e) = false)
    ∧ (∀ outs, Parquet.runChunks outs = outs.map Parquet.process_chunk)
    ∧ (∀ outs, Iceberg.runChunks outs = outs.map Iceberg.process_table_chunk)
    ∧ (∀ pre c post, Parquet.runChunks (pre ++ c :: post) =
        Parquet.runChunks pre ++ Parquet.process_chunk c :: Parquet.runChunks post)
    ∧ (∀ pre c post, Iceberg.runChunks (pre ++ c :: post) =
        Iceberg.runChunks pre ++ Iceberg.process_table_chunk c :: Iceberg.runChunks post) := by
  refine ⟨fun _ => rfl, fun _ => rfl, Parquet.runChunks_applies_each_once, Iceberg.runTableChunks_applies_each_once, ?_, ?_⟩
  · intro pre c post
    simp [Parquet.runChunks_applies_each_once]
  · intro pre c post
    simp [Iceberg.runTableChunks_applies_each_once]

/-- C2 counterexample: the parquet path is not a coarse threshold.  With nine
of ten chunks successful the success fraction 9/10 exceeds 0.8, yet
`generate_and_upload_table` (whose final line is `return completed ==
num_chunks`) reports failure, so it can never report success when some chunk
failed. -/
theorem parquet_success_not_threshold_counterexample :
    Parquet.generate_and_upload_result nineOfTenChunks = false
    ∧ ((Parquet.runChunks nineOfTenChunks).count true : ℚ) /
        (nineOfTenChunks.length : ℚ) > 0.8 := by
  constructor
  · rfl
  · norm_num [nineOfTenChunks, Parquet.runChunks, Parquet.process_chunk]

/-- C2 amended: in the parquet chunk-upload path, `generate_and_upload_table`
reports success for a table exactly when every one of its chunks succeeded
(`completed == num_chunks`); a single failed chunk makes the whole table
report failure. -/
theorem parquet_success_requires_all_chunks (outs : List (Except String Unit)) :
    Parquet.generate_and_upload_result outs = outs.all Parquet.process_chunk := by
  rw [Bool.eq_iff_iff]
  simp only [Parquet.generate_and_upload_result, Parquet.runChunks_applies_each_once,
    beq_iff_eq, List.all_eq_true]
  rw [show outs.length = (outs.map Parquet.process_chunk).length from
    (List.length_map outs Parquet.process_chunk).symm]
  rw [List.count_eq_length]
  constructor
  · intro h o ho
    exact (h _ (List.mem_map_of_mem _ ho)).symm
  · intro h b hb
    obtain ⟨o, ho, rfl⟩ := List.mem_map.mp hb
    exact (h o ho).symm

/-- C1: for every table in ICEBERG_TABLES (whose chunk count is the
`max(1, ...)` of the chunk arithmetic, hence positive), `generate_iceberg_table`
returns True if and only if the number of successfully completed chunks divided
by the total number of chunks is strictly greater than 0.8. -/
theorem iceberg_success_is_coarse_threshold
    (t : TableConfig) (ht : t ∈ ICEBERG_TABLES) (gb : ℚ)
    (outs : List Iceberg.ChunkOutcome)
    (hlen : outs.length = Iceberg.num_chunks (Iceberg.target_rows (gb * t.sizeFraction))) :
    Iceberg.generate_iceberg_table_result outs = true ↔
      ((Iceberg.runChunks outs).count true : ℚ) / (outs.length : ℚ) > 0.8 := by
  have hn : 0 < outs.length := by
    rw [hlen, Iceberg.num_chunks]
    exact Nat.lt_of_lt_of_le Nat.zero_lt_one (le_max_left _ _)
  simp only [Iceberg.generate_iceberg_table_result, if_pos hn]
  exact decide_eq_true_iff

/-- Witness for C1: a concrete one-chunk run of the customers table in which
the single chunk fails, applying the threshold theorem. -/
theorem iceberg_success_threshold_witness :
    customersTable ∈ ICEBERG_TABLES
    ∧ (Iceberg.generate_iceberg_table_result [Iceberg.ChunkOutcome.gen_error "boom"] = true ↔
        ((Iceberg.runChunks [Iceberg.ChunkOutcome.gen_error "boom"]).count true : ℚ) /
          (([Iceberg.ChunkOutcome.gen_error "boom"] : List Iceberg.ChunkOutcome).length : ℚ) > 0.8) :=
  ⟨by simp [ICEBERG_TABLES],
   iceberg_success_is_coarse_threshold customersTable (by simp [ICEBERG_TABLES]) 0
     [Iceberg.ChunkOutcome.gen_error "boom"]
     (by norm_num [Iceberg.num_chunks, Iceberg.target_rows, Iceberg.CHUNK_SIZE, customersTable])⟩

/-- C3: for every configured table, each partition_spec column ending in
'_date' yields a days-transform field named '<column>_day', each column among
country, region, category, event_type, warehouse_location yields an identity
field (the source's `transform=None`) named after the column, and a
customer_id column yields a bucket(100) field named 'customer_id_bucket'. -/
theorem partition_transform_selection_rules :
    ∀ t ∈ ICEBERG_TABLES,
      (partition_fields_of t).isOk = true
      ∧ ∀ col ∈ t.partition_spec,
          (ends_with col "_date" = true →
            ∃ f ∈ partition_fields_list t,
              f.transform = some IcebergTransform.days ∧ f.name = col ++ "_day")
          ∧ (col ∈ CATEGORICAL_PARTITION_COLUMNS →
            ∃ f ∈ partition_fields_list t, f.transform = none ∧ f.name = col)
          ∧ (col = "customer_id" →
            ∃ f ∈ partition_fields_list t,
              f.transform = some (IcebergTransform.bucket 100) ∧
                f.name = col ++ "_bucket") := by
  intro t ht
  simp only [ICEBERG_TABLES, List.mem_cons, List.not_mem_nil, or_false] at ht
  rcases ht with rfl | rfl | rfl | rfl | rfl | rfl | rfl <;> exact ⟨by decide, by decide⟩

/-- Witness for C3: the customers table, whose registration_date partition
column yields a days field named registration_date_day. -/
theorem partition_transform_selection_rules_witness :
    (partition_fields_of customersTable).isOk = true
    ∧ ∃ f ∈ partition_fields_list customersTable,
        f.transform = some IcebergTransform.days ∧
          f.name = "registration_date" ++ "_day" :=
  have h := partition_transform_selection_rules customersTable (by simp [ICEBERG_TABLES])
  ⟨h.1, (h.2 "registration_date" (by decide)).1 (by decide)⟩

/-- C8: a partition_spec column matching none of the transform-selection rules
is silently omitted (the loop falls through, only advancing the enumerate
index); in particular the suppliers PartitionSpec has exactly one field, the
identity field on country, and none for established_year. -/
theorem unmatched_partition_column_omitted :
    (∀ names i col rest, ends_with col "_date" = false →
        col ∉ CATEGORICAL_PARTITION_COLUMNS → col ≠ "customer_id" →
        buildPartitionFieldsAux names i (col :: rest) =
          buildPartitionFieldsAux names (i + 1) rest)
    ∧ partition_fields_of suppliersTable =
        Except.ok [{ source_id := 7, field_id := 1000, transform := none,
                     name := "country" }] := by
  constructor
  · intro names i col rest h1 h2 h3
    simp [buildPartitionFieldsAux, h1, h2, h3]
  · rfl

/-- Witness for C8: established_year matches no rule, so the loop skips it. -/
theorem unmatched_partition_column_omitted_witness :
    buildPartitionFieldsAux ["country"] 1 ["established_year"] =
      buildPartitionFieldsAux ["country"] 2 []
    ∧ partition_fields_of suppliersTable =
        Except.ok [{ source_id := 7, field_id := 1000, transform := none,
                     name := "country" }] :=
  ⟨unmatched_partition_column_omitted.1 ["country"] 1 "established_year" []
      (by decide) (by decide) (by decide),
   unmatched_partition_column_omitted.2⟩

/-- C6: for every target_size_gb >= 0, target_rows is the truncation of
target_size_gb * 1_000_000, both chunk counts are the ceiling of target_rows /
CHUNK_SIZE via the (target_rows + CHUNK_SIZE - 1) // CHUNK_SIZE formula, so
(num_chunks - 1) * CHUNK_SIZE < target_rows <= num_chunks * CHUNK_SIZE whenever
target_rows > 0, and the Iceberg path clamps num_chunks to at least 1. -/
theorem chunk_size_arithmetic (gb : ℚ) (hgb : 0 ≤ gb) :
    Parquet.target_rows gb = (⌊gb * 1000000⌋).toNat
    ∧ Iceberg.target_rows gb = (⌊gb * 1000000⌋).toNat
    ∧ (0 < Parquet.target_rows gb →
        (Parquet.num_chunks (Parquet.target_rows gb) - 1) * Parquet.CHUNK_SIZE <
            Parquet.target_rows gb
          ∧ Parquet.target_rows gb ≤
              Parquet.num_chunks (Parquet.target_rows gb) * Parquet.CHUNK_SIZE)
    ∧ (0 < Iceberg.target_rows gb →
        (Iceberg.num_chunks (Iceberg.target_rows gb) - 1) * Iceberg.CHUNK_SIZE <
            Iceberg.target_rows gb
          ∧ Iceberg.target_rows gb ≤
              Iceberg.num_chunks (Iceberg.target_rows gb) * Iceberg.CHUNK_SIZE)
    ∧ 1 ≤ Iceberg.num_chunks (Iceberg.target_rows gb) := by
  refine ⟨rfl, rfl, ?_, ?_, le_max_left _ _⟩
  · intro h
    simp only [Parquet.num_chunks, Parquet.CHUNK_SIZE] at *
    generalize htr : Parquet.target_rows gb = tr at h ⊢
    have h1 := Nat.div_add_mod (tr + 1000000 - 1) 1000000
    have h2 : (tr + 1000000 - 1) % 1000000 < 1000000 := Nat.mod_lt _ (by norm_num)
    omega
  · intro h
    simp only [Iceberg.num_chunks, Iceberg.CHUNK_SIZE] at *
    generalize htr : Iceberg.target_rows gb = tr at h ⊢
    have h1 := Nat.div_add_mod (tr + 500000 - 1) 500000
    have h2 : (tr + 500000 - 1) % 500000 < 500000 := Nat.mod_lt _ (by norm_num)
    omega

/-- Witness for C6: the sandwich inequality at target_size_gb = 2. -/
theorem chunk_size_arithmetic_witness :
    (0 : ℚ) ≤ 2
    ∧ 0 < Parquet.target_rows 2
    ∧ ((Parquet.num_chunks (Parquet.target_rows 2) - 1) * Parquet.CHUNK_SIZE <
          Parquet.target_rows 2
        ∧ Parquet.target_rows 2 ≤
            Parquet.num_chunks (Parquet.target_rows 2) * Parquet.CHUNK_SIZE) :=
  ⟨by norm_num, by norm_num [Parquet.target_rows],
   (chunk_size_arithmetic 2 (by norm_num)).2.2.1 (by norm_num [Parquet.target_rows])⟩

/-- C10: with no empty-chunk guard, a far-over-range chunk id gives the
products and suppliers generators a negative actual_size, so they raise
(ValueError from the negative-size numpy draws) and `process_chunk` returns
False for that chunk, whereas the customers generator returns an empty frame
in the analogous situation. -/
theorem over_range_chunk_asymmetry (cid cs : Nat) (hcs : 0 < cs) :
    (Parquet.num_products + cs ≤ cid * cs →
        Parquet.generate_products_chunk cid cs =
          Except.error "ValueError: negative dimensions are not allowed"
        ∧ ∀ rest, Parquet.process_chunk
            (Parquet.chunk_body (Parquet.generate_products_chunk cid cs) rest) = false)
    ∧ (Parquet.num_suppliers + cs ≤ cid * cs →
        Parquet.generate_suppliers_chunk cid cs =
          Except.error "ValueError: negative dimensions are not allowed"
        ∧ ∀ rest, Parquet.process_chunk
            (Parquet.chunk_body (Parquet.generate_suppliers_chunk cid cs) rest) = false)
    ∧ (Parquet.num_customers + cs ≤ cid * cs →
        Parquet.generate_customers_chunk cid cs = []) := by
  refine ⟨?_, ?_, ?_⟩
  · intro h
    have herr : Parquet.generate_products_chunk cid cs =
        Except.error "ValueError: negative dimensions are not allowed" := by
      simp only [Parquet.generate_products_chunk, Parquet.num_products] at *
      generalize hs : cid * cs = s at h ⊢
      rw [if_pos (by omega)]
    exact ⟨herr, fun rest => by rw [herr]; rfl⟩
  · intro h
    have herr : Parquet.generate_suppliers_chunk cid cs =
        Except.error "ValueError: negative dimensions are not allowed" := by
      simp only [Parquet.generate_suppliers_chunk, Parquet.num_suppliers] at *
      generalize hs : cid * cs = s at h ⊢
      rw [if_pos (by omega)]
    exact ⟨herr, fun rest => by rw [herr]; rfl⟩
  · intro h
    simp only [Parquet.generate_customers_chunk, Parquet.num_customers] at *
    generalize hs : cid * cs = s at h ⊢
    rw [if_pos (by omega)]

/-- Witness for C10: chunk id 10000001 with chunk size 1 is over range for all
three tables; products and suppliers raise while customers is empty. -/
theorem over_range_chunk_asymmetry_witness :
    (0 : Nat) < 1
    ∧ Parquet.generate_products_chunk 10000001 1 =
        Except.error "ValueError: negative dimensions are not allowed"
    ∧ Parquet.generate_suppliers_chunk 10000001 1 =
        Except.error "ValueError: negative dimensions are not allowed"
    ∧ Parquet.generate_customers_chunk 10000001 1 = [] :=
  ⟨by decide,
   ((over_range_chunk_asymmetry 10000001 1 (by decide)).1 (by decide)).1,
   ((over_range_chunk_asymmetry 10000001 1 (by decide)).2.1 (by decide)).1,
   (over_range_chunk_asymmetry 10000001 1 (by decide)).2.2 (by decide)⟩

/-- Helper: membership in the customers chunk id column is exactly the
interval (chunk_id * chunk_size, (chunk_id + 1) * chunk_size] clipped to
num_customers. -/
theorem Parquet.mem_generate_customers_chunk (cid cs k : Nat) (hcs : 0 < cs) :
    k ∈ Parquet.generate_customers_chunk cid cs ↔
      cid * cs < k ∧ k ≤ (cid + 1) * cs ∧ k ≤ Parquet.num_customers := by
  have hexp : (cid + 1) * cs = cid * cs + cs := by ring
  rw [hexp]
  simp only [Parquet.generate_customers_chunk, Parquet.num_customers]
  generalize hs : cid * cs = s
  split
  next h =>
    simp only [List.not_mem_nil, false_iff]
    intro hcon
    omega
  next h =>
    rw [List.mem_range'_1]
    omega

/-- C9: for every chunk_id and positive chunk_size, the customers chunk id
column is exactly the consecutive integers from chunk_id * chunk_size + 1 up
to min((chunk_id + 1) * chunk_size, num_customers) (empty when chunk_id *
chunk_size >= num_customers); distinct chunks are pairwise disjoint and
together the chunks cover exactly 1..num_customers. -/
theorem customers_chunk_id_ranges (cid cs : Nat) (hcs : 0 < cs) :
    (Parquet.generate_customers_chunk cid cs =
        if Parquet.num_customers ≤ cid * cs then []
        else List.range' (cid * cs + 1)
          (min ((cid + 1) * cs) Parquet.num_customers - cid * cs))
    ∧ (∀ cid2 k, cid ≠ cid2 → k ∈ Parquet.generate_customers_chunk cid cs →
        k ∉ Parquet.generate_customers_chunk cid2 cs)
    ∧ (∀ k, (1 ≤ k ∧ k ≤ Parquet.num_customers) ↔
        ∃ c, k ∈ Parquet.generate_customers_chunk c cs) := by
  refine ⟨?_, ?_, ?_⟩
  · have hexp : (cid + 1) * cs = cid * cs + cs := by ring
    rw [hexp]
    simp only [Parquet.generate_customers_chunk, Parquet.num_customers]
    generalize hs : cid * cs = s
    split
    next h => rw [if_pos (by omega)]
    next h =>
      rw [if_neg (by omega)]
      congr 1
      omega
  · intro cid2 k hne h1 h2
    rw [Parquet.mem_generate_customers_chunk cid cs k hcs] at h1
    rw [Parquet.mem_generate_customers_chunk cid2 cs k hcs] at h2
    rcases Nat.lt_trichotomy cid cid2 with hlt | heq | hgt
    · have hmul : (cid + 1) * cs ≤ cid2 * cs := Nat.mul_le_mul_right cs hlt
      exact Nat.lt_irrefl k (Nat.lt_of_le_of_lt (Nat.le_trans h1.2.1 hmul) h2.1)
    · exact hne heq
    · have hmul : (cid2 + 1) * cs ≤ cid * cs := Nat.mul_le_mul_right cs hgt
      exact Nat.lt_irrefl k (Nat.lt_of_le_of_lt (Nat.le_trans h2.2.1 hmul) h1.1)
  · intro k
    constructor
    · rintro ⟨h1, h2⟩
      refine ⟨(k - 1) / cs, ?_⟩
      rw [Parquet.mem_generate_customers_chunk _ _ _ hcs]
      have hdm := Nat.div_add_mod (k - 1) cs
      have hmod : (k - 1) % cs < cs := Nat.mod_lt _ hcs
      have hexp : ((k - 1) / cs + 1) * cs = cs * ((k - 1) / cs) + cs := by ring
      have hcomm : (k - 1) / cs * cs = cs * ((k - 1) / cs) := by ring
      rw [hexp, hcomm]
      generalize hg : cs * ((k - 1) / cs) = t at hdm ⊢
      omega
    · rintro ⟨c, hc⟩
      rw [Parquet.mem_generate_customers_chunk _ _ _ hcs] at hc
      exact ⟨Nat.lt_of_le_of_lt (Nat.zero_le _) hc.1, hc.2.2⟩

/-- Witness for C9: chunk 2 of size 3 holds exactly the ids 7, 8, 9. -/
theorem customers_chunk_id_ranges_witness :
    (0 : Nat) < 3
    ∧ Parquet.generate_customers_chunk 2 3 =
        (if Parquet.num_customers ≤ 2 * 3 then []
         else List.range' (2 * 3 + 1)
           (min ((2 + 1) * 3) Parquet.num_customers - 2 * 3)) :=
  ⟨by decide, (customers_chunk_id_ranges 2 3 (by decide)).1⟩
